import Mathlib

/-!
Shallow embedding of the LineBot stock-query service (`src/app.py`).

The embedded fragment covers: the symbol alias table (`symbol_map`), the
CSV loader (`load_stock_data`, including the strict `%Y-%m-%d` date parse
with `errors="coerce"` + `dropna`), the three query resolvers
(`get_stock_info_year`, `get_stock_info_month`, `get_stock_info_day`),
and the message handler (`handle_message`), i.e. its text preprocessing
(strip / full-width-space replacement / whitespace re-join), the
`查詢` / `查圖` branch dispatch, the `try/except` blocks, and the echo
fallback.  Out of the embedded fragment: the HTTP / webhook layer, the
matplotlib chart rendering (a successful chart reply is represented
abstractly by `Reply.chart`), and the LINE send API call.

Python exceptions raised inside a `try` block are modelled by
`Except Unit` (`.error ()` = an exception was raised); file-system state
is modelled by `Store`, mapping file names to `FileData`.
-/

namespace LineBot

/-! ## Python-style character and string helpers -/

/-- Whitespace recognised by the handler's preprocessing: `str.strip` /
`str.split()` whitespace (space, tab, newline, CR, VT, FF) plus the
full-width space U+3000 that line 165 of `app.py` replaces by a plain
space before splitting. -/
def isPySpace (c : Char) : Bool :=
  c == ' ' || c == '\t' || c == '\n' || c == '\r' ||
  c == Char.ofNat 11 || c == Char.ofNat 12 || c == Char.ofNat 0x3000

/-- Tokeniser: the combined effect of `msg.strip()`, the full-width-space
replacement and `msg.split()` in `handle_message` (lines 164-166, 173):
split on whitespace, dropping empty chunks.  The accumulator holds the
current token reversed. -/
def splitWsAux : List Char → List Char → List String
  | [], cur => if cur.isEmpty then [] else [String.mk cur.reverse]
  | c :: cs, cur =>
    if isPySpace c then
      if cur.isEmpty then splitWsAux cs []
      else String.mk cur.reverse :: splitWsAux cs []
    else splitWsAux cs (c :: cur)

/-- The token list of an inbound message, i.e. Python's `msg.split()`
after normalisation; `parts` in `handle_message`. -/
def pyTokens (s : String) : List String := splitWsAux s.data []

/-- `" ".join(tokens)`: rebuilds the normalised message text used by the
echo reply (line 241). -/
def joinWithSpace : List String → String
  | [] => ""
  | [t] => t
  | t :: ts => t ++ " " ++ joinWithSpace ts

/-- Splitting a character list on a separator character, Python
`str.split(sep)` semantics: `"a//b"` gives `["a","","b"]`, `""` gives
`[""]`.  The accumulator holds the current chunk reversed. -/
def splitOnCharAux (sep : Char) : List Char → List Char → List (List Char)
  | [], cur => [cur.reverse]
  | c :: cs, cur =>
    if c == sep then cur.reverse :: splitOnCharAux sep cs []
    else splitOnCharAux sep cs (c :: cur)

/-- Python `s.split("/")` on the date token (lines 175, 196). -/
def pySplitSlash (s : String) : List String :=
  (splitOnCharAux '/' s.data []).map (fun l => String.mk l)

/-- Boolean list prefix test, modelling Python `str.startswith` of the
pattern `pre` on the characters `cs`. -/
def hasPrefixCl : List Char → List Char → Bool
  | [], _ => true
  | _ :: _, [] => false
  | p :: ps, c :: cs => p == c && hasPrefixCl ps cs

/-- `msg.startswith(pre)` on the normalised message, computed on the token
list: since the normalised message is `" ".join(parts)` and the patterns
(`"查詢"`, `"查圖"`) contain no whitespace and are at most as long as any
single token extension, the joined string starts with the pattern iff the
first token does. -/
def startsQuery (parts : List String) (pre : List Char) : Bool :=
  match parts with
  | [] => false
  | t :: _ => hasPrefixCl pre t.data

/-- Value of a digit list, most significant first. -/
def digitsVal (cs : List Char) : Nat :=
  cs.foldl (fun a c => a * 10 + (c.toNat - 48)) 0

/-- Python `int(s)` on a string: optional surrounding whitespace, an
optional sign, then a non-empty digit run; anything else raises
`ValueError` (`none`). -/
def pyInt (s : String) : Option Int :=
  let cs := ((s.data.dropWhile isPySpace).reverse.dropWhile isPySpace).reverse
  match cs with
  | [] => none
  | c :: rest =>
    if c == '-' then
      if !rest.isEmpty && rest.all Char.isDigit then
        some (-(digitsVal rest : Int))
      else none
    else if c == '+' then
      if !rest.isEmpty && rest.all Char.isDigit then
        some ((digitsVal rest : Int))
      else none
    else
      if (c :: rest).all Char.isDigit then
        some ((digitsVal (c :: rest) : Int))
      else none

/-- Python `s.zfill(2)` (used on month and day, line 119): left-pad with
`'0'` to width 2, keeping a leading sign character in front. -/
def pyZfill2 (s : String) : String :=
  match s.data with
  | [] => "00"
  | [c] => if c == '-' || c == '+' then String.mk [c, '0'] else String.mk ['0', c]
  | _ => s

/-! ## Calendar dates -/

/-- A parsed calendar date (the value of a non-NaT `Date` cell). -/
structure Date where
  year : Nat
  month : Nat
  day : Nat
deriving DecidableEq, Repr

/-- Gregorian leap-year rule. -/
def isLeap (y : Nat) : Bool :=
  y % 4 == 0 && (y % 100 != 0 || y % 400 == 0)

/-- Days in a month of a given year. -/
def daysInMonth (y m : Nat) : Nat :=
  if m == 2 then (if isLeap y then 29 else 28)
  else if m == 4 || m == 6 || m == 9 || m == 11 then 30
  else 31

/-- A structurally valid calendar date. -/
def DateValid (d : Date) : Prop :=
  1 ≤ d.month ∧ d.month ≤ 12 ∧ 1 ≤ d.day ∧ d.day ≤ daysInMonth d.year d.month

instance (d : Date) : Decidable (DateValid d) := by
  unfold DateValid; infer_instance

/-- Builds a date after the calendar-validity check that Python's
`datetime` constructor performs (month and day ranges). -/
def mkValidDate (y m d : Nat) : Option Date :=
  if 1 ≤ m ∧ m ≤ 12 ∧ 1 ≤ d ∧ d ≤ daysInMonth y m then some ⟨y, m, d⟩ else none

/-- Strict `%Y-%m-%d` parse: four year digits, one or two month and day
digits, and a valid calendar date; everything else fails.  Models both
`pd.to_datetime(..., format="%Y-%m-%d", errors="coerce")` for one cell
(line 77; failure = NaT, the row is then dropped) and
`pd.to_datetime(f"{year}-{month.zfill(2)}-{day.zfill(2)}")` (line 119;
failure = exception) for the ISO-shaped strings the handler builds. -/
def parseYmd (s : String) : Option Date :=
  match splitOnCharAux '-' s.data [] with
  | [ys, ms, ds] =>
    if ys.length == 4 && ys.all Char.isDigit &&
       1 ≤ ms.length && ms.length ≤ 2 && ms.all Char.isDigit &&
       1 ≤ ds.length && ds.length ≤ 2 && ds.all Char.isDigit then
      mkValidDate (digitsVal ys) (digitsVal ms) (digitsVal ds)
    else none
  | _ => none

/-! ## Decimal rendering -/

/-- Round a rational to the nearest integer, ties to even, as Python's
float formatting does at the rounding position. -/
def roundHalfEven (x : ℚ) : Int :=
  let f : Int := Rat.floor x
  let r : ℚ := x - (f : ℚ)
  if r < 1/2 then f
  else if 1/2 < r then f + 1
  else if f % 2 == 0 then f else f + 1

/-- Left-pad a numeral to two digits. -/
def pad2 (n : Nat) : String :=
  if n < 10 then "0" ++ Nat.repr n else Nat.repr n

/-- Python `f"{x:.2f}"` on a price value modelled as a rational: fixed
two fraction digits, rounding half-to-even. -/
def formatFix2 (q : ℚ) : String :=
  let n := roundHalfEven (q * 100)
  let sign := if q < 0 then "-" else ""
  sign ++ Nat.repr (n.natAbs / 100) ++ "." ++ pad2 (n.natAbs % 100)

/-- Left-pad a numeral to four digits (ISO year rendering of
`target_date.date()`). -/
def pad4 (n : Nat) : String :=
  String.mk (List.replicate (4 - (Nat.repr n).length) '0') ++ Nat.repr n

/-- `str(target_date.date())`: ISO `YYYY-MM-DD` rendering. -/
def dateIso (d : Date) : String :=
  pad4 d.year ++ "-" ++ pad2 d.month ++ "-" ++ pad2 d.day

/-- Insert thousands separators into a digit list given least significant
first; `k` counts digits emitted since the last separator. -/
def commaAux : List Char → Nat → List Char
  | [], _ => []
  | c :: cs, k =>
    if k == 3 then ',' :: c :: commaAux cs 1
    else c :: commaAux cs (k + 1)

/-- Python `f"{v:,}"` on an integer: decimal with thousands commas. -/
def commaSep (v : Int) : String :=
  (if v < 0 then "-" else "") ++
  String.mk (commaAux (Nat.toDigits 10 v.natAbs).reverse 0).reverse

/-- Arithmetic mean of a list of rationals (`Series.mean`); only applied
to non-empty lists by the embedded code. -/
def meanQ (l : List ℚ) : ℚ := l.sum / (l.length : ℚ)

/-! ## Data model -/

/-- One CSV data row as read with
`names=["Date","Open","High","Low","Close","Volume","Change (%)"]`
(line 75): the raw `Date` string plus the numeric columns.  The numeric
columns are modelled as already-typed values (well-formed numeric CSV
cells); `volume` is the integer that `int(row["Volume"])` yields. -/
structure RawRow where
  dateStr : String
  openV : ℚ
  highV : ℚ
  lowV : ℚ
  closeV : ℚ
  volumeV : Int
  changeV : ℚ
deriving DecidableEq, Repr

/-- A row surviving the `dropna(subset=["Date"])` of line 78: its date
parsed. -/
structure StockRecord where
  date : Date
  openV : ℚ
  highV : ℚ
  lowV : ℚ
  closeV : ℚ
  volumeV : Int
  changeV : ℚ
deriving DecidableEq, Repr

/-- The date-coercion-and-drop step (lines 77-78) applied to one row. -/
def parseRow (r : RawRow) : Option StockRecord :=
  (parseYmd r.dateStr).map fun d =>
    ⟨d, r.openV, r.highV, r.lowV, r.closeV, r.volumeV, r.changeV⟩

/-- State of one flat file under `stock_data/`: absent
(`os.path.exists` false, line 68), unreadable (the `except` of lines
80-82: `read_csv` or the date coercion itself raised), or a list of data
rows (the rows after the three `skiprows` lines). -/
inductive FileData where
  | missing
  | unreadable
  | rows (rs : List RawRow)
deriving Repr

/-- The read-only file system visible to the loader. -/
structure Store where
  files : List (String × FileData)

/-- The hard-coded alias table `symbol_map` of lines 21-32. -/
def symbol_map : List (String × String) :=
  [("2330", "TSM_TSMC.csv"),
   ("2317", "HNHPF_Hon Hai.csv"),
   ("2454", "2454.TW_MediaTek.csv"),
   ("2303", "2303.TW_UMC.csv"),
   ("2379", "2379.TW_Realtek.csv"),
   ("2412", "CHT_Chunghwa Telecom.csv"),
   ("3008", "3008.TW_Largan.csv"),
   ("2382", "2382.TW_Quanta.csv"),
   ("2301", "2301.TW_Lite-On.csv"),
   ("6669", "6669.TWO_WiWynn.csv")]

/-! ## Loader and query resolvers

The Python functions return either a reply string or raise; a raised
exception (caught by the caller's `try`) is `.error ()`, a returned
reply string is `.ok`.  `load_stock_data` returns `(df, err)`; here
`.error errText` is the `(None, err)` case and `.ok df` the `(df, None)`
case. -/

/-- `load_stock_data` (lines 61-82). -/
def load_stock_data (store : Store) (symbol_code : String) :
    Except String (List StockRecord) :=
  match symbol_map.lookup symbol_code with
  | none => .error ("⚠️ 股票代碼錯誤：" ++ symbol_code)
  | some file_name =>
    match (store.files.lookup file_name).getD FileData.missing with
    | FileData.missing => .error ("❌ 找不到 " ++ symbol_code ++ " 的資料")
    | FileData.unreadable => .error "❌ 讀取股票資料時發生錯誤"
    | FileData.rows rs => .ok (rs.filterMap parseRow)

/-- The reply text of line 97, grouped so that the reported average
close stands out as one segment. -/
def yearReply (symbol_code yearStr : String) (sel : List StockRecord) : String :=
  ("📊 " ++ symbol_code ++ " 在 " ++ yearStr ++ "：\n")
    ++ ("平均收盤價：" ++ formatFix2 (meanQ (sel.map StockRecord.closeV)) ++ " 元")
    ++ ("\n平均日漲幅：" ++ formatFix2 (meanQ (sel.map StockRecord.changeV)) ++ "%")

/-- `get_stock_info_year` (lines 86-97).  `int(year)` failing is an
exception (`.error ()`); the filter compares `df["Date"].dt.year` with
that integer, while the reply texts interpolate the original string. -/
def get_stock_info_year (store : Store) (symbol_code yearStr : String) :
    Except Unit String :=
  match load_stock_data store symbol_code with
  | .error err => .ok err
  | .ok df =>
    match pyInt yearStr with
    | none => .error ()
    | some y =>
      let df_year := df.filter fun r => ((r.date.year : Int) == y)
      if df_year.isEmpty then
        .ok ("⚠️ " ++ symbol_code ++ " 在 " ++ yearStr ++ " 沒有資料")
      else .ok (yearReply symbol_code yearStr df_year)

/-- The reply text of line 111, grouped like `yearReply`. -/
def monthReply (symbol_code yearStr monthStr : String)
    (sel : List StockRecord) : String :=
  ("📈 " ++ symbol_code ++ " 在 " ++ yearStr ++ "/" ++ monthStr ++ "：\n")
    ++ ("平均收盤價：" ++ formatFix2 (meanQ (sel.map StockRecord.closeV)) ++ " 元")
    ++ ("\n平均日漲幅：" ++ formatFix2 (meanQ (sel.map StockRecord.changeV)) ++ "%")

/-- `get_stock_info_month` (lines 100-111). -/
def get_stock_info_month (store : Store)
    (symbol_code yearStr monthStr : String) : Except Unit String :=
  match load_stock_data store symbol_code with
  | .error err => .ok err
  | .ok df =>
    match pyInt yearStr, pyInt monthStr with
    | some y, some m =>
      let df_month := df.filter fun r =>
        ((r.date.year : Int) == y) && ((r.date.month : Int) == m)
      if df_month.isEmpty then
        .ok ("⚠️ " ++ symbol_code ++ " 在 " ++ yearStr ++ "/" ++ monthStr ++ " 沒有資料")
      else .ok (monthReply symbol_code yearStr monthStr df_month)
    | _, _ => .error ()

/-- The reply text of lines 126-134, grouped so that the close line
stands out as one segment. -/
def dayReply (symbol_code : String) (target : Date) (row : StockRecord) : String :=
  ("📅 " ++ symbol_code ++ " 在 " ++ dateIso target ++ " 的資料如下：\n"
      ++ "開盤：" ++ formatFix2 row.openV ++ " 元\n"
      ++ "最高：" ++ formatFix2 row.highV ++ " 元\n"
      ++ "最低：" ++ formatFix2 row.lowV ++ " 元\n")
    ++ ("收盤：" ++ formatFix2 row.closeV ++ " 元\n")
    ++ ("成交量：" ++ commaSep row.volumeV ++ " 股\n"
      ++ "漲幅：" ++ formatFix2 row.changeV ++ "%")

/-- `get_stock_info_day` (lines 114-134).  `pd.to_datetime` on the built
`f"{year}-{month.zfill(2)}-{day.zfill(2)}"` string raising is `.error ()`;
`df[df["Date"] == target_date]` being non-empty means `find?` succeeds,
and `iloc[0]` is the first match. -/
def get_stock_info_day (store : Store)
    (symbol_code yearStr monthStr dayStr : String) : Except Unit String :=
  match load_stock_data store symbol_code with
  | .error err => .ok err
  | .ok df =>
    match parseYmd (yearStr ++ "-" ++ pyZfill2 monthStr ++ "-" ++ pyZfill2 dayStr) with
    | none => .error ()
    | some target =>
      match df.find? (fun r => r.date == target) with
      | none =>
        .ok ("⚠️ " ++ symbol_code ++ " 在 " ++ dateIso target
          ++ " 沒有資料（可能是假日或停市）")
      | some row => .ok (dayReply symbol_code target row)

/-! ## The message handler -/

/-- What `handle_message` sends back: a single text message, or (on a
successful `查圖` command, lines 218-233) a caption-plus-image reply,
abstracted to the symbol and period text that determine it. -/
inductive Reply where
  | text (t : String)
  | chart (symbol_code periodText : String)
deriving DecidableEq, Repr

/-- The body of the `查詢` `try` block (lines 172-187) on the token list
`parts`; `.error ()` is a raised exception (`IndexError` on `parts[1]` /
`parts[2]`, or whatever the resolvers raise). -/
def queryBody (store : Store) (parts : List String) : Except Unit String :=
  match parts.get? 1 with
  | none => .error ()
  | some symbol =>
    match parts.get? 2 with
    | none => .error ()
    | some dtok =>
      match pySplitSlash dtok with
      | [year] => get_stock_info_year store symbol year
      | [year, month] => get_stock_info_month store symbol year month
      | [year, month, day] => get_stock_info_day store symbol year month day
      | _ => .ok "⚠️ 請輸入正確格式：查詢 股票代碼 年 或 年/月 或 年/月/日"

/-- Join with `", "`, as Python's list `repr` separates elements. -/
def joinCommaSpace : List String → String
  | [] => ""
  | [t] => t
  | t :: ts => t ++ ", " ++ joinCommaSpace ts

/-- Python `repr` of a list of plain strings: single-quoted elements in
square brackets. -/
def pyStrListRepr (l : List String) : String :=
  let q := String.mk [Char.ofNat 39]
  "[" ++ joinCommaSpace (l.map fun s => q ++ s ++ q) ++ "]"

/-- The `⚠️ {symbol} 在 {date_parts} 沒有資料` text of line 235;
`date_parts` is rendered as Python renders a list of strings. -/
def noChartData (symbol_code : String) (date_parts : List String) : String :=
  "⚠️ " ++ symbol_code ++ " 在 " ++ pyStrListRepr date_parts ++ " 沒有資料"

/-- The body of the `查圖` `try` block (lines 193-235).  Note the code's
own quirk: when `date_parts` has more than two fields, the
`查圖格式錯誤` text assigned at line 211 is unconditionally overwritten
by the `沒有資料` text of line 235, because `df_filtered` is `None`. -/
def chartBody (store : Store) (parts : List String) : Except Unit Reply :=
  match parts.get? 1 with
  | none => .error ()
  | some symbol =>
    match parts.get? 2 with
    | none => .error ()
    | some dtok =>
      let date_parts := pySplitSlash dtok
      match load_stock_data store symbol with
      | .error err => .ok (Reply.text err)
      | .ok df =>
        match date_parts with
        | [ys] =>
          match pyInt ys with
          | none => .error ()
          | some y =>
            let sel := df.filter fun r => ((r.date.year : Int) == y)
            if sel.isEmpty then .ok (Reply.text (noChartData symbol date_parts))
            else .ok (Reply.chart symbol (toString y))
        | [ys, ms] =>
          match pyInt ys, pyInt ms with
          | some y, some m =>
            let sel := df.filter fun r =>
              ((r.date.year : Int) == y) && ((r.date.month : Int) == m)
            if sel.isEmpty then .ok (Reply.text (noChartData symbol date_parts))
            else .ok (Reply.chart symbol (toString y ++ "_" ++ toString m))
          | _, _ => .error ()
        | _ => .ok (Reply.text (noChartData symbol date_parts))

/-- The generic reply of the `查詢` `except` (line 190). -/
def queryFmtErr : String := "❗請輸入格式：查詢 股票代碼 年 或 年/月 或 年/月/日"

/-- The generic reply of the `查圖` `except` (line 238). -/
def chartGenErr : String := "❌ 產生圖表時發生錯誤"

/-- Branch dispatch of `handle_message` on the normalised token list:
the `startswith("查詢")` / `elif startswith("查圖")` / `else` chain
(lines 171, 192, 240), each command branch wrapped in its `try/except`,
the `else` branch echoing the normalised message (line 241). -/
def routeParts (store : Store) (parts : List String) : Reply :=
  match startsQuery parts ['查', '詢'], startsQuery parts ['查', '圖'] with
  | true, _ =>
    match queryBody store parts with
    | .ok t => Reply.text t
    | .error _ => Reply.text queryFmtErr
  | false, true =>
    match chartBody store parts with
    | .ok r => r
    | .error _ => Reply.text chartGenErr
  | false, false => Reply.text ("你說的是：" ++ joinWithSpace parts)

/-- `handle_message` (lines 162-251): normalise the inbound text, then
dispatch. -/
def handle_message (store : Store) (rawMsg : String) : Reply :=
  routeParts store (pyTokens rawMsg)

/-! ## Concrete stores used by witnesses and counterexamples -/

/-- A file system with no data files at all. -/
def emptyStore : Store := ⟨[]⟩

/-- Two well-formed July 2023 rows and one row with an unparseable date,
in the file the alias `2330` resolves to. -/
def sampleRows : List RawRow :=
  [⟨"2023-07-03", 99, 105, 98, 100, 1000, 1⟩,
   ⟨"2023-07-04", 101, 106, 99, 102, 2000, 2⟩,
   ⟨"bad-date", 0, 0, 0, 0, 0, 0⟩]

/-- A store holding only the TSMC file with `sampleRows`. -/
def sampleStore : Store := ⟨[("TSM_TSMC.csv", FileData.rows sampleRows)]⟩

/-- The two records that survive loading `sampleRows`. -/
def sampleRecords : List StockRecord :=
  [⟨⟨2023, 7, 3⟩, 99, 105, 98, 100, 1000, 1⟩,
   ⟨⟨2023, 7, 4⟩, 101, 106, 99, 102, 2000, 2⟩]

/-- A 5000-character message of letter `a`s. -/
def longMsg : String := String.mk (List.replicate 5000 'a')

/-! ## Routing and helper lemmas -/

theorem route_query (store : Store) (t : String) (rest : List String)
    (h : hasPrefixCl ['查', '詢'] t.data = true) :
    routeParts store (t :: rest) =
      match queryBody store (t :: rest) with
      | .ok s => Reply.text s
      | .error _ => Reply.text queryFmtErr := by
  simp only [routeParts, startsQuery]
  rw [h]

theorem route_chart (store : Store) (t : String) (rest : List String)
    (h1 : hasPrefixCl ['查', '詢'] t.data = false)
    (h2 : hasPrefixCl ['查', '圖'] t.data = true) :
    routeParts store (t :: rest) =
      match chartBody store (t :: rest) with
      | .ok r => r
      | .error _ => Reply.text chartGenErr := by
  simp only [routeParts, startsQuery]
  rw [h1, h2]

theorem route_echo (store : Store) (parts : List String)
    (h1 : startsQuery parts ['查', '詢'] = false)
    (h2 : startsQuery parts ['查', '圖'] = false) :
    routeParts store parts = Reply.text ("你說的是：" ++ joinWithSpace parts) := by
  simp only [routeParts]
  rw [h1, h2]

theorem tu_not_qry {cs : List Char} (h : hasPrefixCl ['查', '圖'] cs = true) :
    hasPrefixCl ['查', '詢'] cs = false := by
  match cs with
  | [] => simp [hasPrefixCl] at h
  | [c] => simp [hasPrefixCl] at h
  | c :: c2 :: rest =>
    simp only [hasPrefixCl, Bool.and_eq_true, beq_iff_eq] at h
    obtain ⟨rfl, rfl, -⟩ := h
    simp [hasPrefixCl]

theorem isEmpty_false_of_ne_nil {α : Type} {l : List α} (h : l ≠ []) :
    l.isEmpty = false := by
  cases l with
  | nil => exact absurd rfl h
  | cons a t => rfl

theorem splitOnCharAux_ne_nil (sep : Char) (cs cur : List Char) :
    splitOnCharAux sep cs cur ≠ [] := by
  induction cs generalizing cur with
  | nil => simp [splitOnCharAux]
  | cons c cs ih =>
    simp only [splitOnCharAux]
    split
    · simp
    · exact ih _

theorem pySplitSlash_ne_nil (s : String) : pySplitSlash s ≠ [] := by
  simp only [pySplitSlash, ne_eq, List.map_eq_nil_iff]
  exact splitOnCharAux_ne_nil '/' s.data []

theorem splitWsAux_nonspace (cs : List Char) :
    ∀ acc, (∀ c ∈ cs, isPySpace c = false) → (acc ≠ [] ∨ cs ≠ []) →
    splitWsAux cs acc = [String.mk (acc.reverse ++ cs)] := by
  induction cs with
  | nil =>
    intro acc _ hne
    rcases hne with h | h
    · simp only [splitWsAux, List.isEmpty_eq_true, h, if_false, List.append_nil]
    · exact absurd rfl h
  | cons c cs ih =>
    intro acc hns _
    have hc : isPySpace c = false := hns c (List.mem_cons_self c cs)
    simp only [splitWsAux, hc, Bool.false_eq_true, if_false]
    rw [ih (c :: acc) (fun x hx => hns x (List.mem_cons_of_mem c hx)) (Or.inl (by simp))]
    simp

/-! ## The claims -/

/-- Claim C1: for every point-lookup query `查詢 <symbol> <year>/<month>/<day>`
where the symbol resolves (the data file loads) and the store contains a
record for exactly the queried date, the reply text contains the stored
close value of that record formatted to two fraction digits. -/
theorem claim_C1 (store : Store) (msg symbol dtok ys ms ds : String)
    (df : List StockRecord) (target : Date) (row : StockRecord)
    (htok : pyTokens msg = ["查詢", symbol, dtok])
    (hsplit : pySplitSlash dtok = [ys, ms, ds])
    (hload : load_stock_data store symbol = .ok df)
    (hdate : parseYmd (ys ++ "-" ++ pyZfill2 ms ++ "-" ++ pyZfill2 ds) = some target)
    (hfind : df.find? (fun r => r.date == target) = some row) :
    ∃ a b, handle_message store msg =
      Reply.text (a ++ ("收盤：" ++ formatFix2 row.closeV ++ " 元\n") ++ b) := by
  unfold handle_message
  rw [htok, route_query store "查詢" [symbol, dtok] (by decide)]
  simp only [queryBody, List.get?, hsplit, get_stock_info_day, hload, hdate, hfind, dayReply]
  exact ⟨_, _, rfl⟩

/-- Claim C1, witness: on `sampleStore`, the query `查詢 2330 2023/07/04`
finds the record of 2023-07-04 and the reply carries its close `102`
formatted to two decimals. -/
theorem claim_C1_witness :
    ∃ a b, handle_message sampleStore "查詢 2330 2023/07/04" =
      Reply.text (a ++ ("收盤：" ++ formatFix2 (102 : ℚ) ++ " 元\n") ++ b) :=
  claim_C1 sampleStore "查詢 2330 2023/07/04" "2330" "2023/07/04" "2023" "07" "04"
    sampleRecords ⟨2023, 7, 4⟩ ⟨⟨2023, 7, 4⟩, 101, 106, 99, 102, 2000, 2⟩
    (by decide) (by decide) rfl rfl rfl

/-- Claim C2: for every average query over a non-empty selected subset of
records (the records of a given year for `查詢 <symbol> <year>`, or of a
given year and month for `查詢 <symbol> <year>/<month>`), the reported
average close is the arithmetic mean of the close values of exactly the
selected records, formatted to two decimals. -/
theorem claim_C2 (store : Store) (msg symbol dtok : String) (df : List StockRecord)
    (htok : pyTokens msg = ["查詢", symbol, dtok])
    (hload : load_stock_data store symbol = .ok df) :
    (∀ ys y, pySplitSlash dtok = [ys] → pyInt ys = some y →
      df.filter (fun r => ((r.date.year : Int) == y)) ≠ [] →
      ∃ a b, handle_message store msg = Reply.text
        (a ++ ("平均收盤價：" ++
          formatFix2 (meanQ ((df.filter fun r => ((r.date.year : Int) == y)).map
            StockRecord.closeV)) ++ " 元") ++ b))
  ∧ (∀ ys ms y m, pySplitSlash dtok = [ys, ms] → pyInt ys = some y → pyInt ms = some m →
      df.filter (fun r => ((r.date.year : Int) == y) && ((r.date.month : Int) == m)) ≠ [] →
      ∃ a b, handle_message store msg = Reply.text
        (a ++ ("平均收盤價：" ++
          formatFix2 (meanQ ((df.filter fun r =>
            ((r.date.year : Int) == y) && ((r.date.month : Int) == m)).map
            StockRecord.closeV)) ++ " 元") ++ b)) := by
  constructor
  · intro ys y hsplit hy hne
    unfold handle_message
    rw [htok, route_query store "查詢" [symbol, dtok] (by decide)]
    simp only [queryBody, List.get?, hsplit, get_stock_info_year, hload, hy,
      isEmpty_false_of_ne_nil hne, Bool.false_eq_true, if_false, yearReply]
    exact ⟨_, _, rfl⟩
  · intro ys ms y m hsplit hy hm hne
    unfold handle_message
    rw [htok, route_query store "查詢" [symbol, dtok] (by decide)]
    simp only [queryBody, List.get?, hsplit, get_stock_info_month, hload, hy, hm,
      isEmpty_false_of_ne_nil hne, Bool.false_eq_true, if_false, monthReply]
    exact ⟨_, _, rfl⟩

/-- Claim C2, witness: on `sampleStore`, `查詢 2330 2023` selects the two
July 2023 records with closes `100` and `102` and reports their mean. -/
theorem claim_C2_witness :
    ∃ a b, handle_message sampleStore "查詢 2330 2023" = Reply.text
      (a ++ ("平均收盤價：" ++ formatFix2 (meanQ [(100 : ℚ), 102]) ++ " 元") ++ b) :=
  (claim_C2 sampleStore "查詢 2330 2023" "2330" "2023" sampleRecords
    (by decide) rfl).1 "2023" 2023 (by decide) (by decide) (by decide)

/-- Claim C3: for every average query whose selected subset of records is
empty, the reply is the explicit no-data text (`⚠️ … 沒有資料`); no mean
is computed over the empty subset. -/
theorem claim_C3 (store : Store) (msg symbol dtok : String) (df : List StockRecord)
    (htok : pyTokens msg = ["查詢", symbol, dtok])
    (hload : load_stock_data store symbol = .ok df) :
    (∀ ys y, pySplitSlash dtok = [ys] → pyInt ys = some y →
      df.filter (fun r => ((r.date.year : Int) == y)) = [] →
      handle_message store msg = Reply.text ("⚠️ " ++ symbol ++ " 在 " ++ ys ++ " 沒有資料"))
  ∧ (∀ ys ms y m, pySplitSlash dtok = [ys, ms] → pyInt ys = some y → pyInt ms = some m →
      df.filter (fun r => ((r.date.year : Int) == y) && ((r.date.month : Int) == m)) = [] →
      handle_message store msg = Reply.text
        ("⚠️ " ++ symbol ++ " 在 " ++ ys ++ "/" ++ ms ++ " 沒有資料")) := by
  constructor
  · intro ys y hsplit hy hempty
    unfold handle_message
    rw [htok, route_query store "查詢" [symbol, dtok] (by decide)]
    simp only [queryBody, List.get?, hsplit, get_stock_info_year, hload, hy, hempty,
      List.isEmpty_nil, if_true]
  · intro ys ms y m hsplit hy hm hempty
    unfold handle_message
    rw [htok, route_query store "查詢" [symbol, dtok] (by decide)]
    simp only [queryBody, List.get?, hsplit, get_stock_info_month, hload, hy, hm, hempty,
      List.isEmpty_nil, if_true]

/-- Claim C3, witness: on `sampleStore` (data only in July 2023),
`查詢 2330 2024` and `查詢 2330 2024/1` both select nothing and reply
with the no-data text. -/
theorem claim_C3_witness :
    handle_message sampleStore "查詢 2330 2024" =
      Reply.text ("⚠️ " ++ "2330" ++ " 在 " ++ "2024" ++ " 沒有資料") ∧
    handle_message sampleStore "查詢 2330 2024/1" =
      Reply.text ("⚠️ " ++ "2330" ++ " 在 " ++ "2024" ++ "/" ++ "1" ++ " 沒有資料") :=
  ⟨(claim_C3 sampleStore "查詢 2330 2024" "2330" "2024" sampleRecords
      (by decide) rfl).1 "2024" 2024 (by decide) (by decide) (by decide),
   (claim_C3 sampleStore "查詢 2330 2024/1" "2330" "2024/1" sampleRecords
      (by decide) rfl).2 "2024" "1" 2024 1 (by decide) (by decide) (by decide) (by decide)⟩

/-- Claim C4, counterexample: the message `查詢 9999` has a symbol token
(`9999`) that does not resolve, yet the reply is the generic
malformed-format text, not the UnknownSymbol text `⚠️ 股票代碼錯誤：9999`
(the `parts[2]` IndexError fires before symbol resolution). -/
theorem claim_C4_cex :
    handle_message emptyStore "查詢 9999" = Reply.text queryFmtErr ∧
    queryFmtErr ≠ "⚠️ 股票代碼錯誤：" ++ "9999" := by
  constructor
  · decide
  · decide

/-- Claim C4, amended: for every inbound `查詢` message with at least
three tokens whose date token splits into at most three fields, and for
every inbound `查圖` message with at least three tokens, an unresolved
symbol token yields exactly the UnknownSymbol reply
`⚠️ 股票代碼錯誤：<symbol>` (and, the handler being a total function, no
exception escapes). -/
theorem claim_C4_amended (store : Store) (msg t0 symbol dtok : String)
    (rest : List String)
    (htok : pyTokens msg = t0 :: symbol :: dtok :: rest)
    (hsym : symbol_map.lookup symbol = none) :
    (hasPrefixCl ['查', '詢'] t0.data = true →
      (pySplitSlash dtok).length ≤ 3 →
      handle_message store msg = Reply.text ("⚠️ 股票代碼錯誤：" ++ symbol))
  ∧ (hasPrefixCl ['查', '圖'] t0.data = true →
      handle_message store msg = Reply.text ("⚠️ 股票代碼錯誤：" ++ symbol)) := by
  have hload : load_stock_data store symbol = .error ("⚠️ 股票代碼錯誤：" ++ symbol) := by
    simp only [load_stock_data, hsym]
  constructor
  · intro hq hlen
    unfold handle_message
    rw [htok, route_query store t0 (symbol :: dtok :: rest) hq]
    have hne := pySplitSlash_ne_nil dtok
    match hsplit : pySplitSlash dtok with
    | [] => exact absurd hsplit hne
    | [a] => simp only [queryBody, List.get?, hsplit, get_stock_info_year, hload]
    | [a, b] => simp only [queryBody, List.get?, hsplit, get_stock_info_month, hload]
    | [a, b, c] => simp only [queryBody, List.get?, hsplit, get_stock_info_day, hload]
    | a :: b :: c :: d :: r =>
      rw [hsplit] at hlen
      simp at hlen
  · intro ht
    unfold handle_message
    rw [htok, route_chart store t0 (symbol :: dtok :: rest) (tu_not_qry ht) ht]
    simp only [chartBody, List.get?, hload]

/-- Claim C4, witness: the unknown symbol `9999` in a three-token `查詢`
or `查圖` message yields the UnknownSymbol reply. -/
theorem claim_C4_witness :
    handle_message emptyStore "查詢 9999 2023" = Reply.text ("⚠️ 股票代碼錯誤：" ++ "9999") ∧
    handle_message emptyStore "查圖 9999 2023" = Reply.text ("⚠️ 股票代碼錯誤：" ++ "9999") :=
  ⟨(claim_C4_amended emptyStore "查詢 9999 2023" "查詢" "9999" "2023" [] (by decide)
      (by decide)).1 (by decide) (by decide),
   (claim_C4_amended emptyStore "查圖 9999 2023" "查圖" "9999" "2023" [] (by decide)
      (by decide)).2 (by decide)⟩

/-- Claim C5: an exception raised inside the `查詢` try-body (IndexError
on missing tokens, `int()` or date-parse failure in the resolvers) is
caught and converted to the generic `❗請輸入格式…` reply, and an
exception inside the `查圖` try-body to the generic `❌ 產生圖表時發生錯誤`
reply; `handle_message` is a total function, so no exception propagates
out of it. -/
theorem claim_C5 (store : Store) (msg : String) :
    (startsQuery (pyTokens msg) ['查', '詢'] = true →
      queryBody store (pyTokens msg) = .error () →
      handle_message store msg = Reply.text queryFmtErr)
  ∧ (startsQuery (pyTokens msg) ['查', '詢'] = false →
     startsQuery (pyTokens msg) ['查', '圖'] = true →
      chartBody store (pyTokens msg) = .error () →
      handle_message store msg = Reply.text chartGenErr) := by
  constructor
  · intro hq herr
    simp only [handle_message, routeParts, hq, herr]
  · intro h1 h2 herr
    simp only [handle_message, routeParts, h1, h2, herr]

/-- Claim C5, witness: the bare messages `查詢` and `查圖` raise
IndexError in their try-bodies and get the generic error replies. -/
theorem claim_C5_witness :
    handle_message emptyStore "查詢" = Reply.text queryFmtErr ∧
    handle_message emptyStore "查圖" = Reply.text chartGenErr :=
  ⟨(claim_C5 emptyStore "查詢").1 (by decide) rfl,
   (claim_C5 emptyStore "查圖").2 (by decide) (by decide) rfl⟩

/-- Claim C6, counterexample: the literal messages `help`, `幫助` and
`說明` are all echoed back verbatim (`你說的是：<msg>`); no Help reply
exists, contradicting the claim that they produce a help text and not an
echo. -/
theorem claim_C6_cex :
    handle_message emptyStore "help" = Reply.text ("你說的是：" ++ "help") ∧
    handle_message emptyStore "幫助" = Reply.text ("你說的是：" ++ "幫助") ∧
    handle_message emptyStore "說明" = Reply.text ("你說的是：" ++ "說明") :=
  ⟨by decide, by decide, by decide⟩

/-- Claim C6, amended: the literal messages `幫助`, `help` and `說明`
fall through to the `else` branch and are echoed back as
`你說的是：<msg>` on every store; this version implements no Help
command. -/
theorem claim_C6_amended (store : Store) :
    handle_message store "help" = Reply.text ("你說的是：" ++ "help") ∧
    handle_message store "幫助" = Reply.text ("你說的是：" ++ "幫助") ∧
    handle_message store "說明" = Reply.text ("你說的是：" ++ "說明") :=
  ⟨rfl, rfl, rfl⟩

/-- Claim C7, counterexample: the unmatched message `hello` (no command
shape, no recognised symbol) is answered by the deterministic echo
`你說的是：hello`, computed locally by the handler; no conversational-AI
endpoint is involved. -/
theorem claim_C7_cex :
    handle_message emptyStore "hello" = Reply.text ("你說的是：" ++ "hello") := by decide

/-- Claim C7, amended: every message that starts with neither `查詢` nor
`查圖` is answered by echoing the normalised message text back as
`你說的是：<normalised msg>`, regardless of any symbol it contains; there
is no AI fallback in this version. -/
theorem claim_C7_amended (store : Store) (msg : String)
    (h1 : startsQuery (pyTokens msg) ['查', '詢'] = false)
    (h2 : startsQuery (pyTokens msg) ['查', '圖'] = false) :
    handle_message store msg = Reply.text ("你說的是：" ++ joinWithSpace (pyTokens msg)) := by
  unfold handle_message
  exact route_echo store (pyTokens msg) h1 h2

/-- Claim C7, witness: `how are you` is echoed back. -/
theorem claim_C7_witness :
    handle_message emptyStore "how are you" =
      Reply.text ("你說的是：" ++ joinWithSpace (pyTokens "how are you")) :=
  claim_C7_amended emptyStore "how are you" (by decide) (by decide)

/-- Claim C8, counterexample: on `sampleStore` the series of `2330` has
two records (fewer than 5), yet `查詢 2330 最近5天` replies with the
malformed-command error, not the mean of the whole series:
`int("最近5天")` raises and the `except` branch answers. -/
theorem claim_C8_cex :
    (match load_stock_data sampleStore "2330" with
      | .ok df => some df.length
      | .error _ => none) = some 2 ∧
    handle_message sampleStore "查詢 2330 最近5天" = Reply.text queryFmtErr :=
  ⟨rfl, by decide⟩

/-- Claim C8, amended: a `查詢 <symbol> <token>` query whose single date
token is not a Python integer (such as `最近5天`) is not a supported
shape: even when the symbol resolves and its data loads, the reply is the
generic malformed-command text, and no recent-average is computed. -/
theorem claim_C8_amended (store : Store) (msg symbol dtok ys : String)
    (df : List StockRecord)
    (htok : pyTokens msg = ["查詢", symbol, dtok])
    (hsplit : pySplitSlash dtok = [ys])
    (hload : load_stock_data store symbol = .ok df)
    (hint : pyInt ys = none) :
    handle_message store msg = Reply.text queryFmtErr := by
  unfold handle_message
  rw [htok, route_query store "查詢" [symbol, dtok] (by decide)]
  simp only [queryBody, List.get?, hsplit, get_stock_info_year, hload, hint]

/-- Claim C8, witness: `查詢 2330 最近5天` on `sampleStore`. -/
theorem claim_C8_witness :
    handle_message sampleStore "查詢 2330 最近5天" = Reply.text queryFmtErr :=
  claim_C8_amended sampleStore "查詢 2330 最近5天" "2330" "最近5天" "最近5天"
    sampleRecords (by decide) (by decide) rfl (by decide)

/-- A message of `n + 1` letter `a`s is echoed back in full. -/
theorem echo_repl (store : Store) (n : Nat) :
    handle_message store (String.mk (List.replicate (n + 1) 'a')) =
      Reply.text ("你說的是：" ++ String.mk (List.replicate (n + 1) 'a')) := by
  have htok : pyTokens (String.mk (List.replicate (n + 1) 'a')) =
      [String.mk (List.replicate (n + 1) 'a')] := by
    unfold pyTokens
    rw [splitWsAux_nonspace _ []
      (fun c hc => by rw [List.eq_of_mem_replicate hc]; rfl)
      (Or.inr (by simp))]
    rfl
  have h1 : startsQuery [String.mk (List.replicate (n + 1) 'a')] ['查', '詢'] = false := by
    show hasPrefixCl ['查', '詢'] (List.replicate (n + 1) 'a') = false
    rw [List.replicate_succ]
    simp [hasPrefixCl]
  have h2 : startsQuery [String.mk (List.replicate (n + 1) 'a')] ['查', '圖'] = false := by
    show hasPrefixCl ['查', '圖'] (List.replicate (n + 1) 'a') = false
    rw [List.replicate_succ]
    simp [hasPrefixCl]
  unfold handle_message
  rw [htok, route_echo store _ h1 h2]
  rfl

/-- Claim C9, counterexample: the 5000-character message `longMsg` is
answered by the full 5005-character echo, exceeding the claimed
4800-4900-character ceiling, with no truncation and no truncation
marker. -/
theorem claim_C9_cex :
    handle_message emptyStore longMsg = Reply.text ("你說的是：" ++ longMsg) ∧
    4900 < ("你說的是：" ++ longMsg).length := by
  constructor
  · exact echo_repl emptyStore 4999
  · show 4900 < ("你說的是：".data ++ longMsg.data).length
    rw [List.length_append]
    have h5 : ("你說的是：".data).length = 5 := by decide
    have hl : (longMsg.data).length = 5000 := List.length_replicate 5000 'a'
    omega

/-- Claim C9, amended: no message-size ceiling is applied to replies:
for every bound `n` there is a message whose reply text is sent verbatim
and exceeds `n` characters. -/
theorem claim_C9_amended (n : Nat) :
    ∃ msg t, handle_message emptyStore msg = Reply.text t ∧ n < t.length := by
  refine ⟨String.mk (List.replicate (n + 1) 'a'), _, echo_repl emptyStore n, ?_⟩
  show n < ("你說的是：".data ++ List.replicate (n + 1) 'a').length
  rw [List.length_append, List.length_replicate]
  have h5 : ("你說的是：".data).length = 5 := by decide
  omega

/-- A successful strict `%Y-%m-%d` parse yields a valid calendar date. -/
theorem parseYmd_valid {s : String} {d : Date} (h : parseYmd s = some d) :
    DateValid d := by
  unfold parseYmd at h
  split at h
  · split at h
    · unfold mkValidDate at h
      split at h
      · injection h with h'
        subst h'
        assumption
      · exact absurd h (by simp)
    · exact absurd h (by simp)
  · exact absurd h (by simp)

/-- Claim C10: every record in a successfully loaded store has a date
that parsed in strict `YYYY-MM-DD` format — it is a valid calendar date
obtained from some raw row's `Date` cell by `parseYmd`; rows whose date
fails to parse were dropped by `filterMap parseRow`. -/
theorem claim_C10 (store : Store) (symbol : String) (df : List StockRecord)
    (hload : load_stock_data store symbol = .ok df) :
    ∀ rec ∈ df, DateValid rec.date ∧
      ∃ raw : RawRow, parseYmd raw.dateStr = some rec.date := by
  intro rec hrec
  unfold load_stock_data at hload
  split at hload
  · exact absurd hload (by simp)
  · split at hload
    · exact absurd hload (by simp)
    · exact absurd hload (by simp)
    · injection hload with h
      subst h
      obtain ⟨raw, -, hparse⟩ := List.mem_filterMap.mp hrec
      unfold parseRow at hparse
      obtain ⟨d, hd, hrec'⟩ := Option.map_eq_some'.mp hparse
      subst hrec'
      exact ⟨parseYmd_valid hd, raw, hd⟩

/-- Claim C10, witness: loading `sampleStore` for `2330` keeps the
2023-07-03 record (a valid parsed date) and drops the `bad-date` row. -/
theorem claim_C10_witness :
    DateValid (⟨2023, 7, 3⟩ : Date) ∧
    ∃ raw : RawRow, parseYmd raw.dateStr = some (⟨2023, 7, 3⟩ : Date) :=
  claim_C10 sampleStore "2330" sampleRecords rfl
    ⟨⟨2023, 7, 3⟩, 99, 105, 98, 100, 1000, 1⟩ (List.Mem.head _)

end LineBot
